import Mathlib

/-!
Shallow embedding of pkg/bmcs/client/client.go (oci-cloud-controller-manager).

External collaborators (the BMCS SDK calls: ListInstances, ListVnicAttachments,
GetVnic, GetInstance, GetSubnet, GetWorkRequest, ListLoadBalancers, the create
and get calls for load balancers, backend sets and listeners) are modelled as
function-valued environment fields returning Except values.  Pagination loops,
which in Go run until the next-page cursor is absent, are modelled with an
explicit fuel parameter: a result of none means the loop did not finish within
the given fuel, so a loop that finishes for no fuel at all is non-terminating.
-/

/-- Lifecycle states used by the client (baremetal.ResourceRunning,
ResourceAttached, ResourceAvailable and the other SDK lifecycle constants). -/
inductive ResState where
  | Running
  | Provisioning
  | Terminating
  | Terminated
  | Attaching
  | Attached
  | Detaching
  | Detached
  | Available
deriving DecidableEq, Repr

/-- baremetal.Instance, restricted to the fields the client reads. -/
structure Instance where
  id : String
  displayName : String
  state : ResState
deriving DecidableEq, Repr

/-- baremetal.VnicAttachment, restricted to the fields the client reads. -/
structure VnicAttachment where
  instanceID : String
  vnicID : String
  state : ResState
deriving DecidableEq, Repr

/-- baremetal.Vnic, restricted to the fields the client reads. -/
structure Vnic where
  hostnameLabel : String
  privateIPAddress : String
  publicIPAddress : String
  subnetID : String
  state : ResState
deriving DecidableEq, Repr

/-- baremetal.Subnet, restricted to its identifier. -/
structure Subnet where
  id : String
deriving DecidableEq, Repr

/-- One page of a paginated list response: the items plus the optional
next-page cursor (ListResponse.NextPage, absent when the string is empty). -/
structure Page (α : Type) where
  items : List α
  nextPage : Option String
deriving DecidableEq, Repr

/-- Errors produced by the client: generic errors built with fmt.Errorf,
the typed SearchError carrying its NotFound flag, and the sentinel
wait.ErrWaitTimeout returned by the backoff helper. -/
inductive CErr where
  | generic (msg : String)
  | search (msg : String) (notFound : Bool)
  | waitTimeout
deriving DecidableEq, Repr

instance exceptDecEq {ε α : Type} [DecidableEq ε] [DecidableEq α] :
    DecidableEq (Except ε α) := fun x y =>
  match x, y with
  | .error v, .error w =>
    if h : v = w then isTrue (by rw [h]) else isFalse (by intro he; cases he; exact h rfl)
  | .error _, .ok _ => isFalse (by intro h; cases h)
  | .ok _, .error _ => isFalse (by intro h; cases h)
  | .ok v, .ok w =>
    if h : v = w then isTrue (by rw [h]) else isFalse (by intro he; cases he; exact h rfl)

/-- The pagination loop shared by GetInstanceByNodeName: call the list
endpoint with the current page option, filter the returned items, append
them, and continue while SetNextPageOption reports a next page.  The fuel
argument bounds the number of iterations; none means the fuel ran out. -/
def pagedFilterAux {α : Type} (fetch : Option String → Except CErr (Page α)) (keep : α → Bool) :
    Nat → Option String → List α → Option (Except CErr (List α))
  | 0, _, _ => none
  | fuel+1, cursor, acc =>
    match fetch cursor with
    | .error e => some (.error e)
    | .ok r =>
      match r.nextPage with
      | none => some (.ok (acc ++ r.items.filter keep))
      | some c => pagedFilterAux fetch keep fuel (some c) (acc ++ r.items.filter keep)

/-- Environment of SDK calls used by GetInstanceByNodeName and its fallback
findInstanceByNodeNameIsVnic.  listInstances takes the display-name filter
and the page cursor; listVnicAttachments takes the page cursor. -/
structure ResolveEnv where
  listInstances : String → Option String → Except CErr (Page Instance)
  listVnicAttachments : Option String → Except CErr (Page VnicAttachment)
  getVnic : String → Except CErr Vnic
  getInstance : String → Except CErr Instance

/-- strings.HasPrefix(s, pre), modelled on the character lists of the two
strings so that it evaluates inside the kernel. -/
def hasPrefixChars (s pre : String) : Bool :=
  pre.data.isPrefixOf s.data

/-- The vnic match condition of findInstanceByNodeNameIsVnic:
vnic.PublicIPAddress == nodeName or (vnic.HostnameLabel != "" and
strings.HasPrefix(nodeName, vnic.HostnameLabel)). -/
def vnicMatchesNodeName (vnic : Vnic) (nodeName : String) : Bool :=
  vnic.publicIPAddress == nodeName ||
    (vnic.hostnameLabel != "" && hasPrefixChars nodeName vnic.hostnameLabel)

/-- The inner loop of findInstanceByNodeNameIsVnic over one page of vnic
attachments: for each Attached attachment fetch the vnic, on a match fetch
the owning instance and keep it when Running.  Any SDK error aborts. -/
def scanAttachments (env : ResolveEnv) (nodeName : String) :
    List VnicAttachment → List Instance → Except CErr (List Instance)
  | [], acc => .ok acc
  | a :: rest, acc =>
    if a.state = ResState.Attached then
      match env.getVnic a.vnicID with
      | .error e => .error e
      | .ok vnic =>
        if vnicMatchesNodeName vnic nodeName then
          match env.getInstance a.instanceID with
          | .error e => .error e
          | .ok inst =>
            if inst.state = ResState.Running then
              scanAttachments env nodeName rest (acc ++ [inst])
            else
              scanAttachments env nodeName rest acc
        else
          scanAttachments env nodeName rest acc
    else
      scanAttachments env nodeName rest acc

/-- Pagination loop of findInstanceByNodeNameIsVnic: the cursor is fed back
through the list options on every iteration. -/
def findInstanceByNodeNameIsVnicAux (env : ResolveEnv) (nodeName : String) :
    Nat → Option String → List Instance → Option (Except CErr (List Instance))
  | 0, _, _ => none
  | fuel+1, cursor, acc =>
    match env.listVnicAttachments cursor with
    | .error e => some (.error e)
    | .ok r =>
      match scanAttachments env nodeName r.items acc with
      | .error e => some (.error e)
      | .ok acc2 =>
        match r.nextPage with
        | none => some (.ok acc2)
        | some c => findInstanceByNodeNameIsVnicAux env nodeName fuel (some c) acc2

/-- findInstanceByNodeNameIsVnic: scan all vnic attachments, then map the
count of kept Running instances to the result: zero yields the NotFound
SearchError, more than one yields the ambiguity error, one is returned. -/
def findInstanceByNodeNameIsVnic (env : ResolveEnv) (nodeName : String) (fuel : Nat) :
    Option (Except CErr Instance) :=
  match findInstanceByNodeNameIsVnicAux env nodeName fuel none [] with
  | none => none
  | some (.error e) => some (.error e)
  | some (.ok running) =>
    match running with
    | [] => some (.error (.search ("could not find instance for node name " ++ nodeName) true))
    | [i] => some (.ok i)
    | l@(_ :: _ :: _) =>
      some (.error (.generic ("expected one instance vnic ip/hostname " ++ nodeName ++
        " but got " ++ toString l.length)))

/-- GetInstanceByNodeName: reject a blank node name, page through instances
filtered server-side by display name keeping the Running ones, then: zero
matches fall back to findInstanceByNodeNameIsVnic, more than one is the
ambiguity error, exactly one is returned. -/
def GetInstanceByNodeName (env : ResolveEnv) (nodeName : String) (fuel : Nat) :
    Option (Except CErr Instance) :=
  if nodeName = "" then
    some (.error (.generic "blank nodeName passed to getInstanceByNodeName()"))
  else
    match pagedFilterAux (env.listInstances nodeName) (fun i => i.state == ResState.Running)
        fuel none [] with
    | none => none
    | some (.error e) => some (.error e)
    | some (.ok running) =>
      match running with
      | [] => findInstanceByNodeNameIsVnic env nodeName fuel
      | [i] => some (.ok i)
      | l@(_ :: _ :: _) =>
        some (.error (.generic ("expected one instance with display name " ++ nodeName ++
          " but got " ++ toString l.length)))

/-- A well-formed chain of pages for a cursor-indexed fetch function: the
first fetch (at the given cursor) returns the first page, every page but the
last carries a next-page cursor under which the fetch returns the following
page, and the last page carries no cursor. -/
def ChainOK {α : Type} (fetch : Option String → Except CErr (Page α)) :
    Option String → List (Page α) → Prop
  | _, [] => False
  | cursor, [p] => fetch cursor = .ok p ∧ p.nextPage = none
  | cursor, p :: q :: rest =>
    fetch cursor = .ok p ∧ ∃ c, p.nextPage = some c ∧ ChainOK fetch (some c) (q :: rest)

/-- Concatenation of the filtered items of a page sequence. -/
def pagesFiltered {α : Type} (keep : α → Bool) (pages : List (Page α)) : List α :=
  (pages.map (fun p => p.items.filter keep)).flatten

/-- Concatenation of the items of a page sequence. -/
def pagesItems {α : Type} (pages : List (Page α)) : List α :=
  (pages.map Page.items).flatten

theorem pagedFilterAux_chain {α : Type} (fetch : Option String → Except CErr (Page α))
    (keep : α → Bool) :
    ∀ (pages : List (Page α)) (cursor : Option String) (acc : List α),
      ChainOK fetch cursor pages →
      pagedFilterAux fetch keep pages.length cursor acc =
        some (.ok (acc ++ pagesFiltered keep pages)) := by
  intro pages
  induction pages with
  | nil => intro cursor acc h; simp [ChainOK] at h
  | cons p rest ih =>
    intro cursor acc h
    cases rest with
    | nil =>
      obtain ⟨hf, hn⟩ := h
      simp [pagedFilterAux, hf, hn, pagesFiltered]
    | cons q rest2 =>
      obtain ⟨hf, c, hc, hrest⟩ := h
      have h2 := ih (some c) (acc ++ p.items.filter keep) hrest
      rw [show (p :: q :: rest2).length = (q :: rest2).length + 1 from rfl]
      simp only [pagedFilterAux, hf, hc]
      simp only [pagedFilterAux] at h2
      rw [h2]
      simp [pagesFiltered]

/-- Claim C2: for every node name whose display-name listing yields exactly one
Running instance, GetInstanceByNodeName returns that instance, and the result
does not depend on the vnic-scan fallback collaborators at all, so the
fallback stage is never invoked. -/
theorem GetInstanceByNodeName_unique_display (env : ResolveEnv) (nodeName : String)
    (pages : List (Page Instance)) (i : Instance)
    (hn : nodeName ≠ "")
    (hchain : ChainOK (env.listInstances nodeName) none pages)
    (hone : pagesFiltered (fun x => x.state == ResState.Running) pages = [i]) :
    GetInstanceByNodeName env nodeName pages.length = some (.ok i) ∧
    ∀ env2 : ResolveEnv, env2.listInstances = env.listInstances →
      GetInstanceByNodeName env2 nodeName pages.length = some (.ok i) := by
  constructor
  · have h := pagedFilterAux_chain (env.listInstances nodeName)
      (fun x => x.state == ResState.Running) pages none [] hchain
    simp [GetInstanceByNodeName, hn, h, hone]
  · intro env2 h2
    have hchain2 : ChainOK (env2.listInstances nodeName) none pages := by
      rw [h2]; exact hchain
    have h := pagedFilterAux_chain (env2.listInstances nodeName)
      (fun x => x.state == ResState.Running) pages none [] hchain2
    simp [GetInstanceByNodeName, hn, h, hone]

def instC2 : Instance := ⟨"ocid1", "node1", ResState.Running⟩

def envC2 : ResolveEnv :=
  ⟨fun name _ => if name = "node1" then .ok ⟨[instC2], none⟩ else .ok ⟨[], none⟩,
   fun _ => .ok ⟨[], none⟩,
   fun _ => .error (.generic "fallback getVnic must not be called"),
   fun _ => .error (.generic "fallback getInstance must not be called")⟩

theorem GetInstanceByNodeName_unique_display_witness :
    GetInstanceByNodeName envC2 "node1" 1 = some (.ok instC2) :=
  (GetInstanceByNodeName_unique_display envC2 "node1" [⟨[instC2], none⟩] instC2
    (by decide) (by exact ⟨by decide, rfl⟩) (by decide)).1

/-- Claim C3: for every node name whose display-name listing yields two or more
Running instances, GetInstanceByNodeName fails with the ambiguity error
(expected one instance with the display name but got the count), and the
result does not depend on the vnic-scan fallback collaborators, so the
fallback stage is never attempted. -/
theorem GetInstanceByNodeName_ambiguous_display (env : ResolveEnv) (nodeName : String)
    (pages : List (Page Instance)) (a b : Instance) (l : List Instance)
    (hn : nodeName ≠ "")
    (hchain : ChainOK (env.listInstances nodeName) none pages)
    (hl : pagesFiltered (fun x => x.state == ResState.Running) pages = a :: b :: l) :
    GetInstanceByNodeName env nodeName pages.length =
      some (.error (.generic ("expected one instance with display name " ++ nodeName ++
        " but got " ++ toString (a :: b :: l).length))) ∧
    ∀ env2 : ResolveEnv, env2.listInstances = env.listInstances →
      GetInstanceByNodeName env2 nodeName pages.length =
        some (.error (.generic ("expected one instance with display name " ++ nodeName ++
          " but got " ++ toString (a :: b :: l).length))) := by
  constructor
  · have h := pagedFilterAux_chain (env.listInstances nodeName)
      (fun x => x.state == ResState.Running) pages none [] hchain
    simp [GetInstanceByNodeName, hn, h, hl]
  · intro env2 h2
    have hchain2 : ChainOK (env2.listInstances nodeName) none pages := by
      rw [h2]; exact hchain
    have h := pagedFilterAux_chain (env2.listInstances nodeName)
      (fun x => x.state == ResState.Running) pages none [] hchain2
    simp [GetInstanceByNodeName, hn, h, hl]

def instC3a : Instance := ⟨"ocid1", "node2", ResState.Running⟩

def instC3b : Instance := ⟨"ocid2", "node2", ResState.Running⟩

def envC3 : ResolveEnv :=
  ⟨fun name _ => if name = "node2" then .ok ⟨[instC3a, instC3b], none⟩ else .ok ⟨[], none⟩,
   fun _ => .ok ⟨[], none⟩,
   fun _ => .error (.generic "fallback getVnic must not be called"),
   fun _ => .error (.generic "fallback getInstance must not be called")⟩

theorem GetInstanceByNodeName_ambiguous_display_witness :
    GetInstanceByNodeName envC3 "node2" 1 =
      some (.error (.generic "expected one instance with display name node2 but got 2")) :=
  (GetInstanceByNodeName_ambiguous_display envC3 "node2" [⟨[instC3a, instC3b], none⟩]
    instC3a instC3b [] (by decide) (by exact ⟨by decide, rfl⟩) (by decide)).1

/-- The instances the vnic-scan stage should keep, written from the words of
the specification: Attached attachments whose vnic matches the node name,
mapped to their owning instances, kept only when Running. -/
def keptInstancesSpec (vnicOf : String → Vnic) (instOf : String → Instance)
    (nodeName : String) (atts : List VnicAttachment) : List Instance :=
  (((atts.filter (fun a => a.state == ResState.Attached)).filter
      (fun a => vnicMatchesNodeName (vnicOf a.vnicID) nodeName)).map
      (fun a => instOf a.instanceID)).filter (fun i => i.state == ResState.Running)

theorem scanAttachments_eq (env : ResolveEnv) (nodeName : String)
    (vnicOf : String → Vnic) (instOf : String → Instance)
    (hv : ∀ id, env.getVnic id = .ok (vnicOf id))
    (hi : ∀ id, env.getInstance id = .ok (instOf id)) :
    ∀ (atts : List VnicAttachment) (acc : List Instance),
      scanAttachments env nodeName atts acc =
        .ok (acc ++ keptInstancesSpec vnicOf instOf nodeName atts) := by
  intro atts
  induction atts with
  | nil => intro acc; simp [scanAttachments, keptInstancesSpec]
  | cons a rest ih =>
    intro acc
    by_cases ha : a.state = ResState.Attached
    · by_cases hm : vnicMatchesNodeName (vnicOf a.vnicID) nodeName = true
      · by_cases hr : (instOf a.instanceID).state = ResState.Running
        · simp [scanAttachments, ha, hv, hm, hi, hr, ih, keptInstancesSpec]
        · simp [scanAttachments, ha, hv, hm, hi, hr, ih, keptInstancesSpec]
      · simp [scanAttachments, ha, hv, hm, hi, ih, keptInstancesSpec]
    · simp [scanAttachments, ha, ih, keptInstancesSpec]

/-- Claim C4: in the vnic-scan fallback, a vnic of an Attached attachment
matches exactly when its public IP equals the node name or its hostname label
is non-empty and a prefix of the node name; matched owning instances are kept
only when Running; zero kept instances yields the SearchError with the
NotFound flag set, and two or more yield the ambiguity error. -/
theorem findInstanceByNodeNameIsVnic_spec (env : ResolveEnv) (nodeName : String)
    (atts : List VnicAttachment) (vnicOf : String → Vnic) (instOf : String → Instance)
    (hl : env.listVnicAttachments none = .ok ⟨atts, none⟩)
    (hv : ∀ id, env.getVnic id = .ok (vnicOf id))
    (hi : ∀ id, env.getInstance id = .ok (instOf id)) :
    (∀ v, vnicMatchesNodeName v nodeName = true ↔
      (v.publicIPAddress = nodeName ∨
        (v.hostnameLabel ≠ "" ∧ v.hostnameLabel.data.isPrefixOf nodeName.data = true))) ∧
    (keptInstancesSpec vnicOf instOf nodeName atts = [] →
      findInstanceByNodeNameIsVnic env nodeName 1 =
        some (.error (.search ("could not find instance for node name " ++ nodeName) true))) ∧
    (∀ i, keptInstancesSpec vnicOf instOf nodeName atts = [i] →
      findInstanceByNodeNameIsVnic env nodeName 1 = some (.ok i)) ∧
    (∀ i j l, keptInstancesSpec vnicOf instOf nodeName atts = i :: j :: l →
      findInstanceByNodeNameIsVnic env nodeName 1 =
        some (.error (.generic ("expected one instance vnic ip/hostname " ++ nodeName ++
          " but got " ++ toString (i :: j :: l).length)))) := by
  have hs := scanAttachments_eq env nodeName vnicOf instOf hv hi atts []
  refine ⟨?_, ?_, ?_, ?_⟩
  · intro v
    simp [vnicMatchesNodeName, hasPrefixChars, Bool.or_eq_true, Bool.and_eq_true,
      beq_iff_eq, bne_iff_ne]
  · intro hk
    simp [findInstanceByNodeNameIsVnic, findInstanceByNodeNameIsVnicAux, hl, hs, hk]
  · intro i hk
    simp [findInstanceByNodeNameIsVnic, findInstanceByNodeNameIsVnicAux, hl, hs, hk]
  · intro i j l hk
    simp [findInstanceByNodeNameIsVnic, findInstanceByNodeNameIsVnicAux, hl, hs, hk]

def attC4 : VnicAttachment := ⟨"inst1", "vnic1", ResState.Attached⟩

def vnicOfC4 : String → Vnic := fun _ => ⟨"worker-1", "10.0.0.5", "", "subnet1", ResState.Available⟩

def instOfC4 : String → Instance := fun _ => ⟨"inst1", "worker-1", ResState.Running⟩

def envC4 : ResolveEnv :=
  ⟨fun _ _ => .ok ⟨[], none⟩,
   fun _ => .ok ⟨[attC4], none⟩,
   fun id => .ok (vnicOfC4 id),
   fun id => .ok (instOfC4 id)⟩

theorem findInstanceByNodeNameIsVnic_spec_witness :
    findInstanceByNodeNameIsVnic envC4 "worker-1.ad1.k8sdns.oraclevcn.com" 1 =
      some (.ok ⟨"inst1", "worker-1", ResState.Running⟩) :=
  (findInstanceByNodeNameIsVnic_spec envC4 "worker-1.ad1.k8sdns.oraclevcn.com" [attC4]
    vnicOfC4 instOfC4 rfl (fun _ => rfl) (fun _ => rfl)).2.2.1
    ⟨"inst1", "worker-1", ResState.Running⟩ (by decide)

/-- Work request lifecycle states (baremetal.WorkRequestSucceeded and the
other SDK work-request state constants). -/
inductive WRState where
  | Accepted
  | InProgress
  | Succeeded
  | Failed
deriving DecidableEq, Repr

/-- baremetal.WorkRequest, restricted to the fields the client reads. -/
structure WorkRequest where
  id : String
  state : WRState
  message : String
  loadBalancerID : String
deriving DecidableEq, Repr

/-- The module-level backoff schedule: Steps 15, Duration 2 seconds,
Factor 1.25, Jitter 0.1 (wait.Backoff).  The numeric fields are modelled as
rationals; the sleeping itself is real time and is not modelled. -/
structure BackoffPolicy where
  steps : Nat
  durationSeconds : ℚ
  factor : ℚ
  jitter : ℚ
deriving DecidableEq, Repr

def backoff : BackoffPolicy := ⟨15, 2, 1.25, 0.1⟩

/-- The condition loop of wait.ExponentialBackoff as used by AwaitWorkRequest:
at most steps condition evaluations; each poll fetches the work request, a
fetch error aborts with that error, Succeeded returns the work request,
Failed returns the error carrying the backend message, anything else
continues; an exhausted budget is wait.ErrWaitTimeout.  The poll argument
gives the work request observed at each attempt index; the second component
of the result is the number of polls performed. -/
def awaitWorkRequestAux (poll : Nat → Except CErr WorkRequest) (id : String) :
    Nat → Nat → Except CErr WorkRequest × Nat
  | 0, i => (.error .waitTimeout, i)
  | steps+1, i =>
    match poll i with
    | .error e => (.error e, i+1)
    | .ok twr =>
      match twr.state with
      | WRState.Succeeded => (.ok twr, i+1)
      | WRState.Failed =>
        (.error (.generic ("WorkRequest " ++ id ++ " failed: " ++ twr.message)), i+1)
      | _ => awaitWorkRequestAux poll id steps (i+1)

/-- AwaitWorkRequest: run the polling loop under the module backoff budget. -/
def AwaitWorkRequest (poll : Nat → Except CErr WorkRequest) (id : String) :
    Except CErr WorkRequest × Nat :=
  awaitWorkRequestAux poll id backoff.steps 0

theorem awaitWorkRequestAux_skip (poll : Nat → Except CErr WorkRequest) (id : String) :
    ∀ (k steps i : Nat), k ≤ steps →
      (∀ j, j < k → ∃ w, poll (i+j) = .ok w ∧ w.state = WRState.InProgress) →
      awaitWorkRequestAux poll id steps i = awaitWorkRequestAux poll id (steps - k) (i + k) := by
  intro k
  induction k with
  | zero => intro steps i _ _; simp
  | succ k ih =>
    intro steps i hk hpoll
    obtain ⟨s, rfl⟩ : ∃ s, steps = s + 1 := ⟨steps - 1, by omega⟩
    obtain ⟨w, hw, hwst⟩ := hpoll 0 (by omega)
    have h1 : awaitWorkRequestAux poll id (s+1) i = awaitWorkRequestAux poll id s (i+1) := by
      simp only [awaitWorkRequestAux]
      rw [show i + 0 = i from rfl] at hw
      rw [hw]
      simp [hwst]
    have h2 := ih s (i+1) (by omega) (fun j hj => by
      have := hpoll (j+1) (by omega)
      rw [show i + (j+1) = i + 1 + j from by omega] at this
      exact this)
    rw [h1, h2]
    congr 1 <;> omega

theorem awaitWorkRequestAux_timeout (poll : Nat → Except CErr WorkRequest) (id : String) :
    ∀ (steps i : Nat),
      (∀ j, j < steps → ∃ w, poll (i+j) = .ok w ∧
        w.state ≠ WRState.Succeeded ∧ w.state ≠ WRState.Failed) →
      awaitWorkRequestAux poll id steps i = (.error .waitTimeout, i + steps) := by
  intro steps
  induction steps with
  | zero => intro i _; simp [awaitWorkRequestAux]
  | succ s ih =>
    intro i hpoll
    obtain ⟨w, hw, hws, hwf⟩ := hpoll 0 (by omega)
    rw [show i + 0 = i from rfl] at hw
    have h2 := ih (i+1) (fun j hj => by
      have := hpoll (j+1) (by omega)
      rw [show i + (j+1) = i + 1 + j from by omega] at this
      exact this)
    simp only [awaitWorkRequestAux, hw]
    cases hcase : w.state with
    | Succeeded => exact absurd hcase hws
    | Failed => exact absurd hcase hwf
    | Accepted => rw [h2]; congr 1; omega
    | InProgress => rw [h2]; congr 1; omega

/-- Claim C6 (amended): within the 15-attempt budget, k InProgress
observations followed by a Succeeded observation give exactly k+1 polls and
the succeeded work request; a Failed observation after k InProgress polls
gives the error carrying the backend message immediately after k+1 polls; a
fetch error aborts immediately with that error after k+1 polls. -/
theorem AwaitWorkRequest_state_machine :
    (∀ (poll : Nat → Except CErr WorkRequest) (id : String) (k : Nat) (wr : WorkRequest),
      k + 1 ≤ backoff.steps →
      (∀ j, j < k → ∃ w, poll j = .ok w ∧ w.state = WRState.InProgress) →
      poll k = .ok wr → wr.state = WRState.Succeeded →
      AwaitWorkRequest poll id = (.ok wr, k+1)) ∧
    (∀ (poll : Nat → Except CErr WorkRequest) (id : String) (k : Nat) (wr : WorkRequest),
      k + 1 ≤ backoff.steps →
      (∀ j, j < k → ∃ w, poll j = .ok w ∧ w.state = WRState.InProgress) →
      poll k = .ok wr → wr.state = WRState.Failed →
      AwaitWorkRequest poll id =
        (.error (.generic ("WorkRequest " ++ id ++ " failed: " ++ wr.message)), k+1)) ∧
    (∀ (poll : Nat → Except CErr WorkRequest) (id : String) (k : Nat) (e : CErr),
      k + 1 ≤ backoff.steps →
      (∀ j, j < k → ∃ w, poll j = .ok w ∧ w.state = WRState.InProgress) →
      poll k = .error e →
      AwaitWorkRequest poll id = (.error e, k+1)) := by
  have hb : backoff.steps = 15 := rfl
  refine ⟨?_, ?_, ?_⟩
  · intro poll id k wr hk hinprog hpk hst
    rw [hb] at hk
    have hskip := awaitWorkRequestAux_skip poll id k 15 0 (by omega)
      (fun j hj => by simpa using hinprog j hj)
    obtain ⟨m, hm⟩ : ∃ m, 15 - k = m + 1 := ⟨14 - k, by omega⟩
    unfold AwaitWorkRequest
    rw [hb, hskip, hm, Nat.zero_add]
    simp only [awaitWorkRequestAux]
    rw [hpk]
    simp [hst]
  · intro poll id k wr hk hinprog hpk hst
    rw [hb] at hk
    have hskip := awaitWorkRequestAux_skip poll id k 15 0 (by omega)
      (fun j hj => by simpa using hinprog j hj)
    obtain ⟨m, hm⟩ : ∃ m, 15 - k = m + 1 := ⟨14 - k, by omega⟩
    unfold AwaitWorkRequest
    rw [hb, hskip, hm, Nat.zero_add]
    simp only [awaitWorkRequestAux]
    rw [hpk]
    simp [hst]
  · intro poll id k e hk hinprog hpk
    rw [hb] at hk
    have hskip := awaitWorkRequestAux_skip poll id k 15 0 (by omega)
      (fun j hj => by simpa using hinprog j hj)
    obtain ⟨m, hm⟩ : ∃ m, 15 - k = m + 1 := ⟨14 - k, by omega⟩
    unfold AwaitWorkRequest
    rw [hb, hskip, hm, Nat.zero_add]
    simp only [awaitWorkRequestAux]
    rw [hpk]

def pollC6 : Nat → Except CErr WorkRequest :=
  fun i => .ok ⟨"wr1", if i < 15 then WRState.InProgress else WRState.Succeeded, "", ""⟩

/-- Counterexample to claim C6 as stated: for a state sequence of 15
InProgress observations followed by Succeeded, AwaitWorkRequest performs only
the 15 budgeted polls and returns the timeout error; it does not perform 16
polls and does not return the succeeded work request. -/
theorem AwaitWorkRequest_budget_counterexample :
    AwaitWorkRequest pollC6 "wr1" = (.error CErr.waitTimeout, 15) := by decide

def wrC6 : WorkRequest := ⟨"wr2", WRState.Succeeded, "", ""⟩

def pollC6w : Nat → Except CErr WorkRequest :=
  fun i => if i < 2 then .ok ⟨"wr2", WRState.InProgress, "", ""⟩ else .ok wrC6

theorem AwaitWorkRequest_state_machine_witness :
    AwaitWorkRequest pollC6w "wr2" = (.ok wrC6, 3) :=
  (AwaitWorkRequest_state_machine).1 pollC6w "wr2" 2 wrC6 (by decide)
    (fun j hj => ⟨⟨"wr2", WRState.InProgress, "", ""⟩, by simp [pollC6w, hj], rfl⟩)
    (by decide) rfl

/-- Claim C7: the backoff schedule has initial interval 2 time units,
multiplier 1.25 per step, jitter 0.1, and a cap of 15 total attempts; a work
request that stays non-terminal for the whole budget yields the timeout
error after exactly 15 polls, and that error is distinct from the error
produced for an explicit Failed state. -/
theorem backoff_schedule_and_timeout :
    backoff.durationSeconds = 2 ∧ backoff.factor = 1.25 ∧ backoff.jitter = 0.1 ∧
    backoff.steps = 15 ∧
    (∀ (poll : Nat → Except CErr WorkRequest) (id : String),
      (∀ j, j < backoff.steps → ∃ w, poll j = .ok w ∧
        w.state ≠ WRState.Succeeded ∧ w.state ≠ WRState.Failed) →
      AwaitWorkRequest poll id = (.error CErr.waitTimeout, 15)) ∧
    (∀ msg, CErr.waitTimeout ≠ CErr.generic msg) := by
  refine ⟨rfl, rfl, rfl, rfl, ?_, ?_⟩
  · intro poll id h
    have ht := awaitWorkRequestAux_timeout poll id backoff.steps 0
      (fun j hj => by simpa using h j hj)
    unfold AwaitWorkRequest
    rw [ht]
    rfl
  · intro msg h
    cases h

def pollC7 : Nat → Except CErr WorkRequest :=
  fun _ => .ok ⟨"wr3", WRState.InProgress, "", ""⟩

theorem backoff_schedule_and_timeout_witness :
    AwaitWorkRequest pollC7 "wr3" = (.error CErr.waitTimeout, 15) :=
  (backoff_schedule_and_timeout).2.2.2.2.1 pollC7 "wr3"
    (fun _ _ => ⟨⟨"wr3", WRState.InProgress, "", ""⟩, rfl, by decide, by decide⟩)

/-- baremetal.LoadBalancer, restricted to the fields the client reads. -/
structure LoadBalancer where
  id : String
  displayName : String
deriving DecidableEq, Repr

/-- baremetal.BackendSet, restricted to its name; the remaining fields
(policy, backends, health checker, SSL and session persistence configs) are
forwarded opaquely to the SDK create call as part of this record. -/
structure BackendSet where
  name : String
deriving DecidableEq, Repr

/-- baremetal.Listener, restricted to its name; the remaining fields
(default backend set name, protocol, port, SSL config) are forwarded
opaquely to the SDK create call as part of this record. -/
structure Listener where
  name : String
deriving DecidableEq, Repr

/-- Environment of SDK calls used by the create-and-await operations.  The
create calls return the work-request id; poll gives, per work-request id,
the work request observed at each polling attempt. -/
structure LBEnv where
  createLoadBalancer : String → String → List String → Except CErr String
  createBackendSet : String → BackendSet → Except CErr String
  createListener : String → Listener → Except CErr String
  poll : String → Nat → Except CErr WorkRequest
  getLoadBalancer : String → Except CErr LoadBalancer
  getBackendSet : String → String → Except CErr BackendSet

/-- CreateAndAwaitLoadBalancer: create, await the work request, then read the
created load balancer through the id carried by the succeeded work request. -/
def CreateAndAwaitLoadBalancer (env : LBEnv) (name shape : String) (subnets : List String) :
    Except CErr LoadBalancer :=
  match env.createLoadBalancer name shape subnets with
  | .error e => .error e
  | .ok req =>
    match (AwaitWorkRequest (env.poll req) req).1 with
    | .error e => .error e
    | .ok result => env.getLoadBalancer result.loadBalancerID

/-- CreateAndAwaitBackendSet: create, await the work request (discarding the
returned work request), then read the backend set by load balancer id and
backend set name. -/
def CreateAndAwaitBackendSet (env : LBEnv) (lb : LoadBalancer) (bs : BackendSet) :
    Except CErr BackendSet :=
  match env.createBackendSet lb.id bs with
  | .error e => .error e
  | .ok wr =>
    match (AwaitWorkRequest (env.poll wr) wr).1 with
    | .error e => .error e
    | .ok _ => env.getBackendSet lb.id bs.name

/-- CreateAndAwaitListener: create, await the work request, and return plain
success; no further read is performed and no listener value is returned. -/
def CreateAndAwaitListener (env : LBEnv) (lb : LoadBalancer) (listener : Listener) :
    Except CErr Unit :=
  match env.createListener lb.id listener with
  | .error e => .error e
  | .ok wr =>
    match (AwaitWorkRequest (env.poll wr) wr).1 with
    | .error e => .error e
    | .ok _ => .ok ()

def wrC5 : WorkRequest := ⟨"wreq1", WRState.Succeeded, "", "lb1"⟩

def envC5 : LBEnv :=
  ⟨fun _ _ _ => .ok "wreq1",
   fun _ _ => .ok "wreq1",
   fun _ _ => .ok "wreq1",
   fun _ _ => .ok wrC5,
   fun objid => .ok ⟨objid, "mylb"⟩,
   fun _ bsname => .ok ⟨bsname⟩⟩

/-- Counterexample to claim C5 as stated: CreateAndAwaitListener issues the
create call and awaits the work request to completion, but performs no
additional read and returns no materialized resource; its successful result
is the bare unit value.  (The client interface has no listener read call at
all.) -/
theorem CreateAndAwaitListener_no_read_counterexample :
    CreateAndAwaitListener envC5 ⟨"lb1", "mylb"⟩ ⟨"listener1"⟩ = .ok () := by decide

/-- Claim C5 (amended): CreateAndAwaitLoadBalancer and CreateAndAwaitBackendSet
issue the mutating call, obtain a work-request id, await the work request,
and then perform one additional read whose result — the now-materialized
resource — is returned; CreateAndAwaitListener issues the call and awaits
the work request but performs no additional read and returns plain success. -/
theorem createAndAwait_sequencing :
    (∀ (env : LBEnv) (name shape : String) (subnets : List String) (req : String)
        (wr : WorkRequest),
      env.createLoadBalancer name shape subnets = .ok req →
      (AwaitWorkRequest (env.poll req) req).1 = .ok wr →
      CreateAndAwaitLoadBalancer env name shape subnets = env.getLoadBalancer wr.loadBalancerID) ∧
    (∀ (env : LBEnv) (lb : LoadBalancer) (bs : BackendSet) (req : String) (wr : WorkRequest),
      env.createBackendSet lb.id bs = .ok req →
      (AwaitWorkRequest (env.poll req) req).1 = .ok wr →
      CreateAndAwaitBackendSet env lb bs = env.getBackendSet lb.id bs.name) ∧
    (∀ (env : LBEnv) (lb : LoadBalancer) (l : Listener) (req : String) (wr : WorkRequest),
      env.createListener lb.id l = .ok req →
      (AwaitWorkRequest (env.poll req) req).1 = .ok wr →
      CreateAndAwaitListener env lb l = .ok ()) := by
  refine ⟨?_, ?_, ?_⟩
  · intro env name shape subnets req wr hc ha
    simp [CreateAndAwaitLoadBalancer, hc, ha]
  · intro env lb bs req wr hc ha
    simp [CreateAndAwaitBackendSet, hc, ha]
  · intro env lb l req wr hc ha
    simp [CreateAndAwaitListener, hc, ha]

theorem createAndAwait_sequencing_witness :
    CreateAndAwaitLoadBalancer envC5 "mylb" "100Mbps" ["subnet1", "subnet2"] =
      .ok ⟨"lb1", "mylb"⟩ :=
  (createAndAwait_sequencing).1 envC5 "mylb" "100Mbps" ["subnet1", "subnet2"] "wreq1" wrC5
    (by decide) (by decide)

/-- Environment of SDK calls used by GetSubnetsForInternalIPs. -/
structure SubnetScanEnv where
  listVnicAttachments : Option String → Except CErr (Page VnicAttachment)
  getVnic : String → Except CErr Vnic
  getSubnet : String → Except CErr Subnet

/-- Inner loop of GetSubnetsForInternalIPs over one page of attachments: for
each Attached attachment fetch the vnic; when its private IP is non-empty,
belongs to the input IP set, and its subnet id has not been seen, fetch the
subnet, append it, and record the subnet id as seen.  The vnic lifecycle
state itself is never inspected. -/
def processSubnetAttachments (env : SubnetScanEnv) (ipSet : List String) :
    List VnicAttachment → List String → List Subnet → Except CErr (List String × List Subnet)
  | [], seen, acc => .ok (seen, acc)
  | a :: rest, seen, acc =>
    if a.state = ResState.Attached then
      match env.getVnic a.vnicID with
      | .error e => .error e
      | .ok vnic =>
        if vnic.privateIPAddress != "" && ipSet.contains vnic.privateIPAddress &&
            !(seen.contains vnic.subnetID) then
          match env.getSubnet vnic.subnetID with
          | .error e => .error e
          | .ok subnet =>
            processSubnetAttachments env ipSet rest (seen ++ [vnic.subnetID]) (acc ++ [subnet])
        else
          processSubnetAttachments env ipSet rest seen acc
    else
      processSubnetAttachments env ipSet rest seen acc

/-- Pagination loop of GetSubnetsForInternalIPs as written in the source:
SetNextPageOption stores the returned cursor into the page options and
reports whether a next page exists, but the listing call passes nil options
instead of those options, so every iteration lists the first page again (the
cursor argument of the environment call is always none). -/
def getSubnetsForInternalIPsAux (env : SubnetScanEnv) (ipSet : List String) :
    Nat → Option String → List String → List Subnet → Option (Except CErr (List Subnet))
  | 0, _, _, _ => none
  | fuel+1, _optsPage, seen, acc =>
    match env.listVnicAttachments none with
    | .error e => some (.error e)
    | .ok r =>
      match processSubnetAttachments env ipSet r.items seen acc with
      | .error e => some (.error e)
      | .ok (seen2, acc2) =>
        match r.nextPage with
        | none => some (.ok acc2)
        | some c => getSubnetsForInternalIPsAux env ipSet fuel (some c) seen2 acc2

/-- GetSubnetsForInternalIPs: run the scan starting from an empty seen set. -/
def GetSubnetsForInternalIPs (env : SubnetScanEnv) (ips : List String) (fuel : Nat) :
    Option (Except CErr (List Subnet)) :=
  getSubnetsForInternalIPsAux env ips fuel none [] []

def attC1 : VnicAttachment := ⟨"inst1", "vnic1", ResState.Attached⟩

def envC1 : SubnetScanEnv :=
  ⟨fun c =>
     match c with
     | none => .ok ⟨[], some "cursor1"⟩
     | some _ => .ok ⟨[attC1], none⟩,
   fun _ => .ok ⟨"", "10.0.0.5", "", "subnet1", ResState.Available⟩,
   fun sid => .ok ⟨sid⟩⟩

/-- Claim C1, evaluated at the failing input: a two-page vnic-attachment
listing whose first page carries cursor1 and whose second page holds the
matching vnic.  Because the listing call ignores the stored page options,
every iteration refetches the first page and sees the cursor again, so the
loop never terminates for any amount of fuel — instead of invoking the list
call exactly twice, feeding cursor1 back, and returning the subnet. -/
theorem GetSubnetsForInternalIPs_never_terminates :
    (∀ (fuel : Nat) (cursor : Option String) (seen : List String) (acc : List Subnet),
      getSubnetsForInternalIPsAux envC1 ["10.0.0.5"] fuel cursor seen acc = none) ∧
    (∀ fuel : Nat, GetSubnetsForInternalIPs envC1 ["10.0.0.5"] fuel = none) := by
  have h : ∀ (fuel : Nat) (cursor : Option String) (seen : List String) (acc : List Subnet),
      getSubnetsForInternalIPsAux envC1 ["10.0.0.5"] fuel cursor seen acc = none := by
    intro fuel
    induction fuel with
    | zero => intro cursor seen acc; rfl
    | succ n ih =>
      intro cursor seen acc
      simp only [getSubnetsForInternalIPsAux, envC1, processSubnetAttachments]
      exact ih (some "cursor1") seen acc
  exact ⟨h, fun fuel => h fuel none [] []⟩

/-- First-seen deduplication of a list of subnet ids relative to an initial
seen set, written from the words of the specification. -/
def dedupFirstSeenAux : List String → List String → List String
  | [], _ => []
  | x :: xs, seen =>
    if seen.contains x then dedupFirstSeenAux xs seen
    else x :: dedupFirstSeenAux xs (seen ++ [x])

/-- The subnet ids eligible for resolution, written from the words of the
specification (amended): subnet ids of vnics of Attached attachments whose
private IP is non-empty and a member of the input IP set.  Note that the
vnic lifecycle state plays no role. -/
def eligibleSubnetIDsSpec (vnicOf : String → Vnic) (ips : List String)
    (atts : List VnicAttachment) : List String :=
  (((atts.filter (fun a => a.state == ResState.Attached)).map (fun a => vnicOf a.vnicID)).filter
      (fun v => v.privateIPAddress != "" && ips.contains v.privateIPAddress)).map Vnic.subnetID

theorem processSubnetAttachments_eq (env : SubnetScanEnv) (ips : List String)
    (vnicOf : String → Vnic) (subnetOf : String → Subnet)
    (hv : ∀ id, env.getVnic id = .ok (vnicOf id))
    (hs : ∀ id, env.getSubnet id = .ok (subnetOf id)) :
    ∀ (atts : List VnicAttachment) (seen : List String) (acc : List Subnet),
      processSubnetAttachments env ips atts seen acc =
        .ok (seen ++ dedupFirstSeenAux (eligibleSubnetIDsSpec vnicOf ips atts) seen,
             acc ++ (dedupFirstSeenAux (eligibleSubnetIDsSpec vnicOf ips atts) seen).map subnetOf) := by
  intro atts
  induction atts with
  | nil => intro seen acc; simp [processSubnetAttachments, eligibleSubnetIDsSpec, dedupFirstSeenAux]
  | cons a rest ih =>
    intro seen acc
    by_cases ha : a.state = ResState.Attached
    · by_cases hp : (vnicOf a.vnicID).privateIPAddress = ""
      · simp [processSubnetAttachments, ha, hv, hs, hp, ih,
          eligibleSubnetIDsSpec, dedupFirstSeenAux, List.append_assoc]
      · by_cases hip : (vnicOf a.vnicID).privateIPAddress ∈ ips
        · by_cases hsn : (vnicOf a.vnicID).subnetID ∈ seen
          · simp [processSubnetAttachments, ha, hv, hs, hp, hip, hsn, ih,
              eligibleSubnetIDsSpec, dedupFirstSeenAux, List.append_assoc]
          · simp [processSubnetAttachments, ha, hv, hs, hp, hip, hsn, ih,
              eligibleSubnetIDsSpec, dedupFirstSeenAux, List.append_assoc]
        · simp [processSubnetAttachments, ha, hv, hs, hp, hip, ih,
            eligibleSubnetIDsSpec, dedupFirstSeenAux, List.append_assoc]
    · simp [processSubnetAttachments, ha, ih, eligibleSubnetIDsSpec]

/-- Claim C8 (amended): over a single page of vnic attachments,
GetSubnetsForInternalIPs considers exactly the Attached attachments whose
vnic has a non-empty private IP belonging to the input set (the vnic
lifecycle state is not inspected, contrary to the claim), returns each
distinct subnet exactly once with first-seen-wins deduplication keyed on the
subnet id — one read per distinct subnet id, so an already-seen subnet is
never fetched again — and an empty input set yields the empty result, not an
error. -/
theorem GetSubnetsForInternalIPs_filter_dedup (env : SubnetScanEnv) (ips : List String)
    (atts : List VnicAttachment) (vnicOf : String → Vnic) (subnetOf : String → Subnet)
    (hl : env.listVnicAttachments none = .ok ⟨atts, none⟩)
    (hv : ∀ id, env.getVnic id = .ok (vnicOf id))
    (hs : ∀ id, env.getSubnet id = .ok (subnetOf id)) :
    GetSubnetsForInternalIPs env ips 1 =
      some (.ok ((dedupFirstSeenAux (eligibleSubnetIDsSpec vnicOf ips atts) []).map subnetOf)) ∧
    GetSubnetsForInternalIPs env [] 1 = some (.ok []) := by
  have hproc := processSubnetAttachments_eq env ips vnicOf subnetOf hv hs atts [] []
  have hproc0 := processSubnetAttachments_eq env [] vnicOf subnetOf hv hs atts [] []
  have hempty : eligibleSubnetIDsSpec vnicOf [] atts = [] := by
    simp [eligibleSubnetIDsSpec]
  constructor
  · simp [GetSubnetsForInternalIPs, getSubnetsForInternalIPsAux, hl, hproc]
  · rw [hempty] at hproc0
    simp [GetSubnetsForInternalIPs, getSubnetsForInternalIPsAux, hl, hproc0,
      dedupFirstSeenAux]

def attC8 : VnicAttachment := ⟨"inst1", "vnic1", ResState.Attached⟩

def envC8 : SubnetScanEnv :=
  ⟨fun _ => .ok ⟨[attC8], none⟩,
   fun _ => .ok ⟨"", "10.0.0.5", "", "subnet1", ResState.Provisioning⟩,
   fun sid => .ok ⟨sid⟩⟩

/-- Counterexample to claim C8 as stated: the only vnic here is in the
Provisioning state, not Available, yet its subnet is returned — the code
never inspects the vnic lifecycle state, so the "whose vnic is in the
Available state" condition of the claim is false of the code. -/
theorem GetSubnetsForInternalIPs_vnic_state_counterexample :
    GetSubnetsForInternalIPs envC8 ["10.0.0.5"] 1 = some (.ok [⟨"subnet1"⟩]) ∧
    envC8.getVnic "vnic1" = .ok ⟨"", "10.0.0.5", "", "subnet1", ResState.Provisioning⟩ := by
  decide

def vnicOfC8 : String → Vnic := fun vid =>
  if vid = "vnic1" then ⟨"", "10.0.0.5", "", "subnet1", ResState.Available⟩
  else ⟨"", "10.0.0.6", "", "subnet1", ResState.Available⟩

def envC8w : SubnetScanEnv :=
  ⟨fun _ => .ok ⟨[⟨"inst1", "vnic1", ResState.Attached⟩,
                  ⟨"inst2", "vnic2", ResState.Attached⟩], none⟩,
   fun vid => .ok (vnicOfC8 vid),
   fun sid => .ok ⟨sid⟩⟩

theorem GetSubnetsForInternalIPs_filter_dedup_witness :
    GetSubnetsForInternalIPs envC8w ["10.0.0.5", "10.0.0.6"] 1 = some (.ok [⟨"subnet1"⟩]) :=
  (GetSubnetsForInternalIPs_filter_dedup envC8w ["10.0.0.5", "10.0.0.6"]
    [⟨"inst1", "vnic1", ResState.Attached⟩, ⟨"inst2", "vnic2", ResState.Attached⟩]
    vnicOfC8 (fun sid => ⟨sid⟩) rfl (fun _ => rfl) (fun _ => rfl)).1

/-- Kubernetes node address types used by the extractor
(api.NodeInternalIP and api.NodeExternalIP). -/
inductive AddrType where
  | internal
  | external
deriving DecidableEq, Repr

/-- api.NodeAddress, restricted to type and address. -/
structure NodeAddress where
  type : AddrType
  address : String
deriving DecidableEq, Repr

/-- extractNodeAddressesFromVnic.  net.ParseIP of the Go standard library is
an external collaborator and is abstracted as the parseIP argument: it
returns the normalized textual form of a syntactically valid IP and none on
a malformed one.  A non-empty private IP yields one internal record when it
parses and a hard error otherwise; then a non-empty public IP yields one
external record when it parses and a hard error otherwise; an empty field
yields no record and no error. -/
def extractNodeAddressesFromVnic (parseIP : String → Option String) (vnic : Vnic) :
    Except CErr (List NodeAddress) :=
  if vnic.privateIPAddress != "" then
    match parseIP vnic.privateIPAddress with
    | none =>
      .error (.generic ("instance has invalid private address: " ++ vnic.privateIPAddress))
    | some s =>
      if vnic.publicIPAddress != "" then
        match parseIP vnic.publicIPAddress with
        | none =>
          .error (.generic ("instance has invalid public address: " ++ vnic.publicIPAddress))
        | some t => .ok [⟨AddrType.internal, s⟩, ⟨AddrType.external, t⟩]
      else
        .ok [⟨AddrType.internal, s⟩]
  else
    if vnic.publicIPAddress != "" then
      match parseIP vnic.publicIPAddress with
      | none =>
        .error (.generic ("instance has invalid public address: " ++ vnic.publicIPAddress))
      | some t => .ok [⟨AddrType.external, t⟩]
    else
      .ok []

/-- Claim C9: address extraction yields one internal record per non-empty
valid private IP and one external record per non-empty valid public IP; a
present but invalid IP is a hard error; an absent IP yields no record and no
error. -/
theorem extractNodeAddressesFromVnic_spec (parseIP : String → Option String) (vnic : Vnic) :
    (vnic.privateIPAddress = "" → vnic.publicIPAddress = "" →
      extractNodeAddressesFromVnic parseIP vnic = .ok []) ∧
    (∀ s, vnic.privateIPAddress ≠ "" → parseIP vnic.privateIPAddress = some s →
      vnic.publicIPAddress = "" →
      extractNodeAddressesFromVnic parseIP vnic = .ok [⟨AddrType.internal, s⟩]) ∧
    (∀ s t, vnic.privateIPAddress ≠ "" → parseIP vnic.privateIPAddress = some s →
      vnic.publicIPAddress ≠ "" → parseIP vnic.publicIPAddress = some t →
      extractNodeAddressesFromVnic parseIP vnic =
        .ok [⟨AddrType.internal, s⟩, ⟨AddrType.external, t⟩]) ∧
    (∀ t, vnic.privateIPAddress = "" → vnic.publicIPAddress ≠ "" →
      parseIP vnic.publicIPAddress = some t →
      extractNodeAddressesFromVnic parseIP vnic = .ok [⟨AddrType.external, t⟩]) ∧
    (vnic.privateIPAddress ≠ "" → parseIP vnic.privateIPAddress = none →
      extractNodeAddressesFromVnic parseIP vnic =
        .error (.generic ("instance has invalid private address: " ++ vnic.privateIPAddress))) ∧
    (∀ s, (vnic.privateIPAddress = "" ∨ parseIP vnic.privateIPAddress = some s) →
      vnic.publicIPAddress ≠ "" → parseIP vnic.publicIPAddress = none →
      extractNodeAddressesFromVnic parseIP vnic =
        .error (.generic ("instance has invalid public address: " ++ vnic.publicIPAddress))) := by
  refine ⟨?_, ?_, ?_, ?_, ?_, ?_⟩
  · intro hp hq; simp [extractNodeAddressesFromVnic, hp, hq]
  · intro s hp hps hq; simp [extractNodeAddressesFromVnic, hp, hps, hq]
  · intro s t hp hps hq hqt; simp [extractNodeAddressesFromVnic, hp, hps, hq, hqt]
  · intro t hp hq hqt; simp [extractNodeAddressesFromVnic, hp, hq, hqt]
  · intro hp hpn; simp [extractNodeAddressesFromVnic, hp, hpn]
  · rintro s (hp | hps) hq hqn
    · simp [extractNodeAddressesFromVnic, hp, hq, hqn]
    · by_cases hp : vnic.privateIPAddress = ""
      · simp [extractNodeAddressesFromVnic, hp, hq, hqn]
      · simp [extractNodeAddressesFromVnic, hp, hps, hq, hqn]

def vnicC9 : Vnic := ⟨"", "10.0.0.5", "", "subnet1", ResState.Available⟩

def parseIPC9 : String → Option String :=
  fun s => if s = "10.0.0.5" then some "10.0.0.5" else none

theorem extractNodeAddressesFromVnic_spec_witness :
    extractNodeAddressesFromVnic parseIPC9 vnicC9 =
      .ok [⟨AddrType.internal, "10.0.0.5"⟩] :=
  (extractNodeAddressesFromVnic_spec parseIPC9 vnicC9).2.1 "10.0.0.5"
    (by decide) (by decide) rfl

/-- Pagination loop of GetLoadBalancerByName: list a page, return the first
load balancer whose display name equals the requested name, otherwise follow
the next-page cursor; when the pages are exhausted fail with the NotFound
SearchError. -/
def getLoadBalancerByNameAux (fetch : Option String → Except CErr (Page LoadBalancer))
    (name : String) : Nat → Option String → Option (Except CErr LoadBalancer)
  | 0, _ => none
  | fuel+1, cursor =>
    match fetch cursor with
    | .error e => some (.error e)
    | .ok r =>
      match r.items.find? (fun lb => lb.displayName == name) with
      | some lb => some (.ok lb)
      | none =>
        match r.nextPage with
        | none =>
          some (.error (.search ("could not find load balancer with name " ++ name) true))
        | some c => getLoadBalancerByNameAux fetch name fuel (some c)

/-- GetLoadBalancerByName: run the paged search from the first page. -/
def GetLoadBalancerByName (fetch : Option String → Except CErr (Page LoadBalancer))
    (name : String) (fuel : Nat) : Option (Except CErr LoadBalancer) :=
  getLoadBalancerByNameAux fetch name fuel none

theorem getLoadBalancerByNameAux_chain (fetch : Option String → Except CErr (Page LoadBalancer))
    (name : String) :
    ∀ (pages : List (Page LoadBalancer)) (cursor : Option String), ChainOK fetch cursor pages →
      getLoadBalancerByNameAux fetch name pages.length cursor =
        (match (pagesItems pages).find? (fun x => x.displayName == name) with
         | some lb => some (.ok lb)
         | none =>
           some (.error (.search ("could not find load balancer with name " ++ name) true))) := by
  intro pages
  induction pages with
  | nil => intro cursor h; simp [ChainOK] at h
  | cons p rest ih =>
    intro cursor h
    cases rest with
    | nil =>
      obtain ⟨hf, hn⟩ := h
      cases hfind : p.items.find? (fun x => x.displayName == name) with
      | some lb => simp [getLoadBalancerByNameAux, hf, hn, hfind, pagesItems]
      | none => simp [getLoadBalancerByNameAux, hf, hn, hfind, pagesItems]
    | cons q rest2 =>
      obtain ⟨hf, c, hc, hrest⟩ := h
      have h2 := ih (some c) hrest
      rw [show (p :: q :: rest2).length = (q :: rest2).length + 1 from rfl]
      simp only [getLoadBalancerByNameAux, hf, hc]
      cases hfind : p.items.find? (fun x => x.displayName == name) with
      | some lb =>
        simp [hfind, pagesItems, List.find?_append]
      | none =>
        simp only [getLoadBalancerByNameAux] at h2
        simp [hfind, pagesItems, List.find?_append, h2]

/-- Claim C10: GetLoadBalancerByName returns the first load balancer in page
enumeration order whose display name equals the requested name — returning
already at the page containing the first match, so later duplicates are
never detected as ambiguous — and when no page contains a match it fails
with the SearchError whose NotFound flag is set. -/
theorem GetLoadBalancerByName_first_match
    (fetch : Option String → Except CErr (Page LoadBalancer)) (name : String) :
    (∀ pages lb, ChainOK fetch none pages →
      (pagesItems pages).find? (fun x => x.displayName == name) = some lb →
      GetLoadBalancerByName fetch name pages.length = some (.ok lb)) ∧
    (∀ pages, ChainOK fetch none pages →
      (pagesItems pages).find? (fun x => x.displayName == name) = none →
      GetLoadBalancerByName fetch name pages.length =
        some (.error (.search ("could not find load balancer with name " ++ name) true))) ∧
    (∀ page lb, fetch none = .ok page →
      page.items.find? (fun x => x.displayName == name) = some lb →
      GetLoadBalancerByName fetch name 1 = some (.ok lb)) := by
  refine ⟨?_, ?_, ?_⟩
  · intro pages lb hchain hfind
    have hc := getLoadBalancerByNameAux_chain fetch name pages none hchain
    simp [GetLoadBalancerByName, hc, hfind]
  · intro pages hchain hfind
    have hc := getLoadBalancerByNameAux_chain fetch name pages none hchain
    simp [GetLoadBalancerByName, hc, hfind]
  · intro page lb hf hfind
    simp [GetLoadBalancerByName, getLoadBalancerByNameAux, hf, hfind]

def fetchC10 : Option String → Except CErr (Page LoadBalancer) :=
  fun c =>
    match c with
    | none => .ok ⟨[⟨"lbid1", "othername"⟩, ⟨"lbid2", "mylb2"⟩], some "cursor2"⟩
    | some _ => .ok ⟨[⟨"lbid3", "mylb2"⟩], none⟩

theorem GetLoadBalancerByName_first_match_witness :
    GetLoadBalancerByName fetchC10 "mylb2" 2 = some (.ok ⟨"lbid2", "mylb2"⟩) :=
  (GetLoadBalancerByName_first_match fetchC10 "mylb2").1
    [⟨[⟨"lbid1", "othername"⟩, ⟨"lbid2", "mylb2"⟩], some "cursor2"⟩,
     ⟨[⟨"lbid3", "mylb2"⟩], none⟩]
    ⟨"lbid2", "mylb2"⟩ ⟨rfl, "cursor2", rfl, rfl, rfl⟩ (by decide)
